import Mathlib

/-!
Shallow embedding of the LDAP connection wrapper in `src/connection.cc`
(namespace `ldap_client`, class `LDAPConnection`).

The underlying protocol engine (OpenLDAP's C API) is modelled as a record of
return codes, one per engine entry point, together with the engine's
last-error text and the message handle a successful search would produce.
Each wrapped operation returns the outcome the caller observes
(`Except LDAPError _`) paired with the exact sequence of calls the engine
observes (`List EngineCall`), so claims about "what the engine sees" are
statements about that trace.

C strings: a `std::string` handed to the engine through `.c_str()` (or copied
with `strdup` / `ber_strdup`) is observed only up to its first NUL byte;
`cStrCopy` models that view.  String lengths are modelled as character counts,
a faithful abstraction for the byte lengths the source manipulates.
-/

/-- The byte sequence a C consumer of `s.c_str()` observes: the contents of
`s` up to (excluding) the first NUL character.  Also models the copy made by
`strdup` / `ber_strdup`. -/
def cStrCopy (s : String) : String :=
  String.mk (s.toList.takeWhile (fun c => c ≠ Char.ofNat 0))

/-- `strlen` of the C view of `s`: length of `s` up to the first NUL. -/
def cStrlen (s : String) : Nat :=
  (cStrCopy s).length

/-- `LDAP_VERSION2` from `<ldap.h>`. -/
def LDAP_VERSION2 : Int := 2

/-- `LDAP_VERSION3` from `<ldap.h>`. -/
def LDAP_VERSION3 : Int := 3

/-- `LDAP_SCOPE_SUBTREE` from `<ldap.h>`. -/
def LDAP_SCOPE_SUBTREE : Int := 2

/-- `LDAP_OPT_PROTOCOL_VERSION` (0x0011) from `<ldap.h>`. -/
def LDAP_OPT_PROTOCOL_VERSION : Int := 17

/-- One call into the underlying engine, with the arguments it observes.
`saslBind` records the DN, the mechanism (`LDAP_SASL_SIMPLE` is the null
pointer, hence `none`), and the staged credential value and explicit length.
`search` records the attribute-array argument as
`Option (List (Option String))`: `none` would be a null attribute-list
pointer, `some l` a non-null pointer to the array `l` whose entries are
string pointers (`some _`) or the null terminator (`none`). -/
inductive EngineCall where
  | init (uri : String)
  | setOption (opt : Int) (value : Int)
  | saslBind (dn : String) (mechanism : Option String) (credVal : String) (credLen : Nat)
  | search (base : String) (scope : Int) (filter : String)
      (attrsPtr : Option (List (Option String))) (tvSec : Int) (tvUsec : Int)
  | unbind
  deriving DecidableEq

/-- Tests whether an engine call is the unbind/release call. -/
def EngineCall.isUnbind : EngineCall → Bool
  | EngineCall.unbind => true
  | _ => false

/-- The attribute-array argument of a search call, when the call is a search. -/
def EngineCall.attrsOf : EngineCall → Option (Option (List (Option String)))
  | EngineCall.search _ _ _ a _ _ => some a
  | _ => none

/-- The `(tv_sec, tv_usec)` argument of a search call, when the call is a search. -/
def EngineCall.tvOf : EngineCall → Option (Int × Int)
  | EngineCall.search _ _ _ _ s u => some (s, u)
  | _ => none

/-- The staged credential `(bv_val, bv_len)` of a bind call, when the call is a bind. -/
def EngineCall.credOf : EngineCall → Option (String × Nat)
  | EngineCall.saslBind _ _ v l => some (v, l)
  | _ => none

/-- The error a public operation raises: either a parameter error thrown before
reaching the engine (`LDAPErrParamError`), or an error translated from a
non-zero engine return code, carrying the code and the last-error text. -/
inductive LDAPError where
  | paramError (message : String)
  | engineError (code : Int) (text : String)
  deriving DecidableEq

/-- The underlying engine, abstracted as the return code each entry point
produces, the current last-error text, and the message handle a successful
search yields. -/
structure Engine where
  initRc : Int
  setOptionRc : Int
  bindRc : Int
  searchRc : Int
  unbindRc : Int
  lastError : String
  searchMsg : Nat
  deriving DecidableEq

/-- The external result type: owns the raw message handle returned by a
successful search (the back-reference to the producing session carries no
observable state and is not modelled). -/
structure LDAPResult where
  msg : Nat
  deriving DecidableEq

/-- Modelled from the spec: `LDAPErrCode2Exception` is defined in this
repository outside `src/`; per the spec, every non-zero engine return code is
translated into a raised error carrying the numeric code and the descriptive
last-error text fetched at the moment of failure. -/
def LDAPErrCode2Exception (code : Int) (text : String) : LDAPError :=
  LDAPError.engineError code text

/-- Modelled from the spec: `kLdapFilterAll`, the all-attributes sentinel
declared in `ldap++.h` (not under `src/`).  The spec describes the sentinel as
the "empty/sentinel value" meaning "all attributes", i.e. the empty attribute
vector. -/
def kLdapFilterAll : List String := []

namespace LDAPConnection

/-- Embeds `LDAPConnection::SetVersion` (src/connection.cc:88-98).
Rejects versions other than `LDAP_VERSION2`/`LDAP_VERSION3` with a parameter
error before any engine call; otherwise forwards the version as the
protocol-version option and translates a non-zero return code. -/
def SetVersion (e : Engine) (newversion : Int) :
    Except LDAPError Unit × List EngineCall :=
  if newversion ≠ LDAP_VERSION2 ∧ newversion ≠ LDAP_VERSION3 then
    (Except.error (LDAPError.paramError "Unsupported LDAP version"), [])
  else
    (if e.setOptionRc ≠ 0 then
        Except.error (LDAPErrCode2Exception e.setOptionRc e.lastError)
      else Except.ok (),
      [EngineCall.setOption LDAP_OPT_PROTOCOL_VERSION newversion])

/-- Embeds the constructor `LDAPConnection::LDAPConnection`
(src/connection.cc:48-55): `ldap_initialize` on the URI, translating a
non-zero code, then `SetVersion`. -/
def new (e : Engine) (uri : String) (version : Int) :
    Except LDAPError Unit × List EngineCall :=
  if e.initRc ≠ 0 then
    (Except.error (LDAPErrCode2Exception e.initRc e.lastError),
      [EngineCall.init (cStrCopy uri)])
  else
    let sv := SetVersion e version
    (sv.1, EngineCall.init (cStrCopy uri) :: sv.2)

/-- Embeds the destructor `LDAPConnection::~LDAPConnection`
(src/connection.cc:60-63): one unconditional `ldap_unbind_ext_s` whose return
value is discarded, so teardown cannot raise. -/
def destructor (e : Engine) : Unit × List EngineCall :=
  ((), [EngineCall.unbind])

/-- Embeds `LDAPConnection::SimpleBind` (src/connection.cc:108-122).  The
source stages `passwd.bv_val = strdup(user.c_str())` and
`passwd.bv_len = user.length()` — the username, not the password — and calls
`ldap_sasl_bind_s` with the `LDAP_SASL_SIMPLE` (null) mechanism. -/
def SimpleBind (e : Engine) (user password : String) :
    Except LDAPError Unit × List EngineCall :=
  let bvVal := cStrCopy user
  let bvLen := user.length
  (if e.bindRc ≠ 0 then
      Except.error (LDAPErrCode2Exception e.bindRc e.lastError)
    else Except.ok (),
    [EngineCall.saslBind (cStrCopy user) none bvVal bvLen])

/-- Embeds `LDAPConnection::SASLBind` (src/connection.cc:131-146).  Stages
`passwd.bv_val = ber_strdup(password.c_str())` and
`passwd.bv_len = strlen(passwd.bv_val)`, then calls `ldap_sasl_bind_s` with
the `LDAP_SASL_SIMPLE` (null) mechanism. -/
def SASLBind (e : Engine) (user password : String) :
    Except LDAPError Unit × List EngineCall :=
  let bvVal := cStrCopy password
  let bvLen := cStrlen password
  (if e.bindRc ≠ 0 then
      Except.error (LDAPErrCode2Exception e.bindRc e.lastError)
    else Except.ok (),
    [EngineCall.saslBind (cStrCopy user) none bvVal bvLen])

end LDAPConnection

/-- Embeds the attribute-array marshaling of the canonical search
(src/connection.cc:172-175): each attribute's `c_str()` pointer is pushed in
caller order, then one null terminator is pushed. -/
def marshalAttrs (attrs : List String) : List (Option String) :=
  attrs.map (fun a => some (cStrCopy a)) ++ [none]

namespace LDAPConnection

/-- Embeds the canonical `LDAPConnection::Search(base, scope, filter, attrs,
timeout)` (src/connection.cc:160-184).  The millisecond timeout is split with
C++ truncating division (`tv.tv_sec = timeout / 1000`,
`tv.tv_usec = (timeout % 1000) * 1000`); the attribute array is marshaled
null-terminated and passed as `&attrlist[0]`, a non-null pointer; a non-zero
return code is translated and no result is produced, otherwise a new
`LDAPResult` takes the message handle. -/
def Search (e : Engine) (base : String) (scope : Int) (filter : String)
    (attrs : List String) (timeout : Int) :
    Except LDAPError LDAPResult × List EngineCall :=
  let tvSec := Int.tdiv timeout 1000
  let tvUsec := Int.tmod timeout 1000 * 1000
  let attrlist := marshalAttrs attrs
  (if e.searchRc ≠ 0 then
      Except.error (LDAPErrCode2Exception e.searchRc e.lastError)
    else Except.ok ⟨e.searchMsg⟩,
    [EngineCall.search (cStrCopy base) scope (cStrCopy filter) (some attrlist)
      tvSec tvUsec])

/-- Embeds `Search(base, scope, filter, attrs)` (src/connection.cc:198-202):
delegates with the default 30000 ms timeout. -/
def Search_attrs (e : Engine) (base : String) (scope : Int) (filter : String)
    (attrs : List String) : Except LDAPError LDAPResult × List EngineCall :=
  Search e base scope filter attrs 30000

/-- Embeds `Search(base, scope, filter, timeout)` (src/connection.cc:216-220):
delegates with the `kLdapFilterAll` attribute sentinel. -/
def Search_timeout (e : Engine) (base : String) (scope : Int) (filter : String)
    (timeout : Int) : Except LDAPError LDAPResult × List EngineCall :=
  Search e base scope filter kLdapFilterAll timeout

/-- Embeds `Search(base, scope, filter)` (src/connection.cc:233-237):
delegates with `kLdapFilterAll` and the default 30000 ms timeout. -/
def Search_scoped (e : Engine) (base : String) (scope : Int) (filter : String) :
    Except LDAPError LDAPResult × List EngineCall :=
  Search e base scope filter kLdapFilterAll 30000

/-- Embeds `Search(base, filter, timeout)` (src/connection.cc:250-255):
delegates with the subtree scope and `kLdapFilterAll`. -/
def Search_base_timeout (e : Engine) (base : String) (filter : String)
    (timeout : Int) : Except LDAPError LDAPResult × List EngineCall :=
  Search e base LDAP_SCOPE_SUBTREE filter kLdapFilterAll timeout

/-- Embeds `Search(base, filter)` (src/connection.cc:268-272): delegates with
the subtree scope, `kLdapFilterAll` and the default 30000 ms timeout. -/
def Search_base (e : Engine) (base : String) (filter : String) :
    Except LDAPError LDAPResult × List EngineCall :=
  Search e base LDAP_SCOPE_SUBTREE filter kLdapFilterAll 30000

end LDAPConnection

/-- Construct a session and, when construction succeeded (C++ runs a
destructor only for a fully constructed object), immediately destroy it; the
value is the full trace of engine calls over the session's lifetime. -/
def openClose (e : Engine) (uri : String) (version : Int) : List EngineCall :=
  match (LDAPConnection.new e uri version).1 with
  | Except.error _ => (LDAPConnection.new e uri version).2
  | Except.ok _ =>
      (LDAPConnection.new e uri version).2 ++ (LDAPConnection.destructor e).2

/-- An engine on which every entry point succeeds. -/
def engOk : Engine := ⟨0, 0, 0, 0, 0, "", 1⟩

/-- An engine on which every entry point fails with a distinct code. -/
def engFail : Engine := ⟨7, 9, 49, 85, 1, "boom", 0⟩

/-- C1: the claim says `SimpleBind(u, p)` stages the password bytes of `p`
with explicit length `p`'s length as the credential.  The source instead
stages `strdup(user.c_str())` with length `user.length()`: at
`user = "admin"`, `password = "secret"`, the credential handed to the
engine's bind call is `("admin", 5)`, not `("secret", 6)`. -/
theorem C1_simpleBind_stages_username :
    ((LDAPConnection.SimpleBind engOk "admin" "secret").2.head?.bind
        EngineCall.credOf = some ("admin", 5))
    ∧ ((LDAPConnection.SimpleBind engOk "admin" "secret").2.head?.bind
        EngineCall.credOf ≠ some ("secret", 6)) := by
  exact ⟨by decide, by decide⟩

/-- C2 counterexample: the claim says a search that omits `attributes` makes
the engine observe a null attribute-list pointer.  At the concrete call
`Search("dc=example,dc=org", 2, "(objectClass=x)")` the engine observes
`some [none]` — a non-null pointer to an array whose single entry is the
terminator — which is not the null pointer `none`. -/
theorem C2_counterexample :
    ((LDAPConnection.Search_scoped engOk "dc=example,dc=org" 2
        "(objectClass=x)").2.head?.bind EngineCall.attrsOf
      = some (some [none]))
    ∧ (some [none] : Option (List (Option String))) ≠ none := by
  exact ⟨by decide, by decide⟩

/-- C2 (amended): every search overload that omits `attributes` hands the
engine a non-null, null-terminated attribute array marshaled from the
`kLdapFilterAll` sentinel — with `kLdapFilterAll` empty, the array whose
single entry is the terminator — never a null attribute-list pointer. -/
theorem C2_omitted_attrs_nonnull (e : Engine) (base filter : String)
    (scope timeout : Int) :
    ((LDAPConnection.Search_timeout e base scope filter timeout).2.head?.bind
        EngineCall.attrsOf = some (some (marshalAttrs kLdapFilterAll)))
    ∧ ((LDAPConnection.Search_scoped e base scope filter).2.head?.bind
        EngineCall.attrsOf = some (some (marshalAttrs kLdapFilterAll)))
    ∧ ((LDAPConnection.Search_base_timeout e base filter timeout).2.head?.bind
        EngineCall.attrsOf = some (some (marshalAttrs kLdapFilterAll)))
    ∧ ((LDAPConnection.Search_base e base filter).2.head?.bind
        EngineCall.attrsOf = some (some (marshalAttrs kLdapFilterAll)))
    ∧ marshalAttrs kLdapFilterAll = [none] :=
  ⟨rfl, rfl, rfl, rfl, rfl⟩

/-- C3: the claim says `SASLBind(u, p)` performs the same engine call as
`SimpleBind(u, p)`.  At `user = "admin"`, `password = "secret"`, SimpleBind
stages the username `("admin", 5)` as the credential while SASLBind stages
the password `("secret", 6)`, so the two engine calls differ. -/
theorem C3_bind_calls_differ :
    (LDAPConnection.SimpleBind engOk "admin" "secret").2
        = [EngineCall.saslBind "admin" none "admin" 5]
    ∧ (LDAPConnection.SASLBind engOk "admin" "secret").2
        = [EngineCall.saslBind "admin" none "secret" 6]
    ∧ (LDAPConnection.SimpleBind engOk "admin" "secret").2
        ≠ (LDAPConnection.SASLBind engOk "admin" "secret").2 := by
  exact ⟨by decide, by decide, by decide⟩

/-- C4: for a version outside {2, 3}, `SetVersion` fails with the parameter
error and performs no engine call; for a version in {2, 3} it forwards the
value as the protocol-version option and fails with the translated engine
error exactly when the option-set return code is non-zero. -/
theorem C4_setVersion_validation (e : Engine) (v : Int) :
    ((v ≠ 2 ∧ v ≠ 3) →
        LDAPConnection.SetVersion e v
          = (Except.error (LDAPError.paramError "Unsupported LDAP version"), []))
    ∧ ((v = 2 ∨ v = 3) →
        (LDAPConnection.SetVersion e v).2
            = [EngineCall.setOption LDAP_OPT_PROTOCOL_VERSION v]
        ∧ (e.setOptionRc ≠ 0 →
            (LDAPConnection.SetVersion e v).1
              = Except.error (LDAPError.engineError e.setOptionRc e.lastError))
        ∧ (e.setOptionRc = 0 →
            (LDAPConnection.SetVersion e v).1 = Except.ok ())) := by
  constructor
  · intro h
    simp [LDAPConnection.SetVersion, LDAP_VERSION2, LDAP_VERSION3, h.1, h.2]
  · intro h
    have hv : ¬(v ≠ LDAP_VERSION2 ∧ v ≠ LDAP_VERSION3) := by
      rcases h with h | h <;> simp [LDAP_VERSION2, LDAP_VERSION3, h]
    refine ⟨?_, ?_, ?_⟩
    · simp [LDAPConnection.SetVersion, hv]
    · intro hrc
      simp [LDAPConnection.SetVersion, hv, hrc, LDAPErrCode2Exception]
    · intro hrc
      simp [LDAPConnection.SetVersion, hv, hrc]

/-- C4 witness: at version 5 the parameter error is raised with no engine
call; at version 3 with a succeeding engine the call goes through. -/
theorem C4_witness :
    LDAPConnection.SetVersion engOk 5
        = (Except.error (LDAPError.paramError "Unsupported LDAP version"), [])
    ∧ (LDAPConnection.SetVersion engOk 3).1 = Except.ok () :=
  ⟨(C4_setVersion_validation engOk 5).1 (by decide),
    ((C4_setVersion_validation engOk 3).2 (Or.inr rfl)).2.2 rfl⟩

/-- C5: every shorter search overload equals the canonical five-parameter
search with the omitted parameters filled by the defaults subtree scope,
`kLdapFilterAll` attribute sentinel and 30000 ms timeout. -/
theorem C5_overloads_delegate (e : Engine) (base filter : String) (scope : Int)
    (attrs : List String) (timeout : Int) :
    LDAPConnection.Search_attrs e base scope filter attrs
        = LDAPConnection.Search e base scope filter attrs 30000
    ∧ LDAPConnection.Search_timeout e base scope filter timeout
        = LDAPConnection.Search e base scope filter kLdapFilterAll timeout
    ∧ LDAPConnection.Search_scoped e base scope filter
        = LDAPConnection.Search e base scope filter kLdapFilterAll 30000
    ∧ LDAPConnection.Search_base_timeout e base filter timeout
        = LDAPConnection.Search e base LDAP_SCOPE_SUBTREE filter kLdapFilterAll
            timeout
    ∧ LDAPConnection.Search_base e base filter
        = LDAPConnection.Search e base LDAP_SCOPE_SUBTREE filter kLdapFilterAll
            30000 :=
  ⟨rfl, rfl, rfl, rfl, rfl⟩

/-- C6: for every timeout `T` in milliseconds the engine's time structure
receives seconds `= T / 1000` and microseconds `= (T mod 1000) * 1000` with
C++ truncating division (negative values are not rejected by this layer); in
particular at `T ∈ {0, 999, 1000, 1500, 30000}`, and overloads omitting the
timeout yield 30 seconds / 0 microseconds. -/
theorem C6_timeout_decomposition (e : Engine) (base filter : String)
    (scope : Int) (attrs : List String) (T : Int) :
    ((LDAPConnection.Search e base scope filter attrs T).2.head?.bind
        EngineCall.tvOf = some (Int.tdiv T 1000, Int.tmod T 1000 * 1000))
    ∧ ((LDAPConnection.Search e base scope filter attrs 0).2.head?.bind
        EngineCall.tvOf = some (0, 0))
    ∧ ((LDAPConnection.Search e base scope filter attrs 999).2.head?.bind
        EngineCall.tvOf = some (0, 999000))
    ∧ ((LDAPConnection.Search e base scope filter attrs 1000).2.head?.bind
        EngineCall.tvOf = some (1, 0))
    ∧ ((LDAPConnection.Search e base scope filter attrs 1500).2.head?.bind
        EngineCall.tvOf = some (1, 500000))
    ∧ ((LDAPConnection.Search e base scope filter attrs 30000).2.head?.bind
        EngineCall.tvOf = some (30, 0))
    ∧ ((LDAPConnection.Search_attrs e base scope filter attrs).2.head?.bind
        EngineCall.tvOf = some (30, 0))
    ∧ ((LDAPConnection.Search_base e base filter).2.head?.bind
        EngineCall.tvOf = some (30, 0)) :=
  ⟨rfl, rfl, rfl, rfl, rfl, rfl, rfl, rfl⟩

/-- C7: the attribute array handed to the engine by the canonical search is
exactly the marshaled caller sequence: `N` entries in caller order (each the
C view of the caller's string), followed by exactly one null terminator. -/
theorem C7_attr_marshaling (e : Engine) (base filter : String) (scope : Int)
    (attrs : List String) (T : Int) :
    ((LDAPConnection.Search e base scope filter attrs T).2.head?.bind
        EngineCall.attrsOf = some (some (marshalAttrs attrs)))
    ∧ (marshalAttrs attrs).length = attrs.length + 1
    ∧ (marshalAttrs attrs).take attrs.length
        = attrs.map (fun a => some (cStrCopy a))
    ∧ (marshalAttrs attrs).drop attrs.length = [none]
    ∧ (marshalAttrs attrs).count (none : Option String) = 1 := by
  refine ⟨rfl, ?_, ?_, ?_, ?_⟩
  · simp [marshalAttrs]
  · rw [marshalAttrs.eq_1, ← List.length_map attrs (fun a => some (cStrCopy a)),
      List.take_left]
  · rw [marshalAttrs.eq_1, ← List.length_map attrs (fun a => some (cStrCopy a)),
      List.drop_left]
  · have h0 : (attrs.map (fun a => some (cStrCopy a))).count
        (none : Option String) = 0 := by
      rw [List.count_eq_zero]
      simp
    simp [marshalAttrs, List.count_append, h0]

/-- C8: whenever the engine returns a non-zero code from initialization,
option setting, bind, or search, the corresponding public operation raises
the error carrying that code and the last-error text, and a failed search
returns no result object. -/
theorem C8_error_propagation (e : Engine) (uri base filter user pw : String)
    (scope T : Int) (attrs : List String) :
    (e.initRc ≠ 0 →
        (LDAPConnection.new e uri 3).1
          = Except.error (LDAPError.engineError e.initRc e.lastError))
    ∧ (e.setOptionRc ≠ 0 →
        (LDAPConnection.SetVersion e 3).1
          = Except.error (LDAPError.engineError e.setOptionRc e.lastError))
    ∧ (e.bindRc ≠ 0 →
        (LDAPConnection.SimpleBind e user pw).1
            = Except.error (LDAPError.engineError e.bindRc e.lastError)
        ∧ (LDAPConnection.SASLBind e user pw).1
            = Except.error (LDAPError.engineError e.bindRc e.lastError))
    ∧ (e.searchRc ≠ 0 →
        (LDAPConnection.Search e base scope filter attrs T).1
            = Except.error (LDAPError.engineError e.searchRc e.lastError)
        ∧ ∀ r : LDAPResult,
            (LDAPConnection.Search e base scope filter attrs T).1
              ≠ Except.ok r) := by
  refine ⟨?_, ?_, ?_, ?_⟩
  · intro h
    simp [LDAPConnection.new, h, LDAPErrCode2Exception]
  · intro h
    simp [LDAPConnection.SetVersion, LDAP_VERSION2, LDAP_VERSION3, h,
      LDAPErrCode2Exception]
  · intro h
    constructor
    · simp [LDAPConnection.SimpleBind, h, LDAPErrCode2Exception]
    · simp [LDAPConnection.SASLBind, h, LDAPErrCode2Exception]
  · intro h
    constructor
    · simp [LDAPConnection.Search, h, LDAPErrCode2Exception]
    · intro r
      simp [LDAPConnection.Search, h, LDAPErrCode2Exception]

/-- C8 witness: on the failing engine, construction raises the error with
code 7, SetVersion with code 9, SimpleBind with code 49, and search with
code 85 and text "boom", and the failed search admits no result. -/
theorem C8_witness :
    (LDAPConnection.new engFail "ldap://h" 3).1
        = Except.error (LDAPError.engineError 7 "boom")
    ∧ (LDAPConnection.SetVersion engFail 3).1
        = Except.error (LDAPError.engineError 9 "boom")
    ∧ (LDAPConnection.SimpleBind engFail "u" "p").1
        = Except.error (LDAPError.engineError 49 "boom")
    ∧ (LDAPConnection.Search engFail "b" 2 "f" [] 100).1
        = Except.error (LDAPError.engineError 85 "boom")
    ∧ ∀ r : LDAPResult,
        (LDAPConnection.Search engFail "b" 2 "f" [] 100).1 ≠ Except.ok r :=
  ⟨(C8_error_propagation engFail "ldap://h" "b" "f" "u" "p" 2 100 []).1
      (by decide),
    (C8_error_propagation engFail "ldap://h" "b" "f" "u" "p" 2 100 []).2.1
      (by decide),
    ((C8_error_propagation engFail "ldap://h" "b" "f" "u" "p" 2 100 []).2.2.1
      (by decide)).1,
    ((C8_error_propagation engFail "ldap://h" "b" "f" "u" "p" 2 100 []).2.2.2
      (by decide)).1,
    ((C8_error_propagation engFail "ldap://h" "b" "f" "u" "p" 2 100 []).2.2.2
      (by decide)).2⟩

/-- The constructor's trace holds only initialization and option calls, never
the unbind/release call. -/
lemma new_trace_no_unbind (e : Engine) (uri : String) (v : Int) :
    ((LDAPConnection.new e uri v).2).countP EngineCall.isUnbind = 0 := by
  unfold LDAPConnection.new LDAPConnection.SetVersion
  split
  · simp [EngineCall.isUnbind]
  · split <;> simp [EngineCall.isUnbind]

/-- C9: teardown of a constructed session is one unconditional unbind/release
that raises nothing regardless of the engine's unbind result, and a session
constructed (never bound, never searched) then destroyed performs exactly one
unbind/release call over its lifetime. -/
theorem C9_teardown (e : Engine) (uri : String) (v : Int)
    (h : (LDAPConnection.new e uri v).1 = Except.ok ()) :
    LDAPConnection.destructor e = ((), [EngineCall.unbind])
    ∧ (openClose e uri v).countP EngineCall.isUnbind = 1 := by
  refine ⟨rfl, ?_⟩
  unfold openClose
  rw [h]
  simp [LDAPConnection.destructor, List.countP_append, new_trace_no_unbind,
    EngineCall.isUnbind]

/-- C9 witness: opening a session on the succeeding engine and destroying it
performs exactly one unbind/release call. -/
theorem C9_witness :
    LDAPConnection.destructor engOk = ((), [EngineCall.unbind])
    ∧ (openClose engOk "ldap://example.org" 3).countP EngineCall.isUnbind
        = 1 :=
  C9_teardown engOk "ldap://example.org" 3 rfl

/-- C10: when engine initialization succeeds and the version lies outside
{2, 3}, construction raises the parameter error propagated from `SetVersion`
(never an engine-translated error), and the trace shows the initialization
call already happened — and nothing else. -/
theorem C10_ctor_version_error (e : Engine) (uri : String) (v : Int)
    (hinit : e.initRc = 0) (h2 : v ≠ 2) (h3 : v ≠ 3) :
    (LDAPConnection.new e uri v).1
        = Except.error (LDAPError.paramError "Unsupported LDAP version")
    ∧ (LDAPConnection.new e uri v).2 = [EngineCall.init (cStrCopy uri)]
    ∧ ∀ code text, (LDAPConnection.new e uri v).1
        ≠ Except.error (LDAPError.engineError code text) := by
  have hsv : LDAPConnection.SetVersion e v
      = (Except.error (LDAPError.paramError "Unsupported LDAP version"), []) := by
    simp [LDAPConnection.SetVersion, LDAP_VERSION2, LDAP_VERSION3, h2, h3]
  refine ⟨?_, ?_, ?_⟩
  · simp [LDAPConnection.new, hinit, hsv]
  · simp [LDAPConnection.new, hinit, hsv]
  · intro code text
    simp [LDAPConnection.new, hinit, hsv]

/-- C10 witness: with the succeeding engine and version 5, construction
raises the parameter error and the trace is the single initialization call. -/
theorem C10_witness :
    (LDAPConnection.new engOk "ldap://h" 5).1
        = Except.error (LDAPError.paramError "Unsupported LDAP version")
    ∧ (LDAPConnection.new engOk "ldap://h" 5).2
        = [EngineCall.init (cStrCopy "ldap://h")] :=
  ⟨(C10_ctor_version_error engOk "ldap://h" 5 rfl (by decide) (by decide)).1,
    (C10_ctor_version_error engOk "ldap://h" 5 rfl (by decide) (by decide)).2.1⟩
